import Mathlib

/-!
# Eldiron host/engine boundary: the shared headers

A verification development over the three C headers that make up the
boundary between the native host and the embedded engine:

* `Xcode/Eldiron/Eldiron Shared/Metal.h`: the six uniform records read by
  the shading stage,
* `crates/theframework/Xcode/TheFramework Shared/Bridge.h` and
  `creator_lib/rust.h`: the constants and function prototypes of the
  foreign-function surface.

The headers hold declarations only.  They are embedded as data (types,
record fields, object-like macros, prototypes), transcribed top to bottom,
together with the C struct layout rule that turns a record declaration into
byte offsets.
-/

namespace Eldiron

/-! ## C types that occur in the three headers -/

/-- The C types written in Metal.h, Bridge.h and rust.h.  `uint8_t_ptr` is
`uint8_t *` and `const_char_ptr` is `const char *`. -/
inductive CType
  | void
  | bool
  | float
  | int
  | uint32_t
  | uintptr_t
  | uint8_t_ptr
  | const_char_ptr
  | vector_float2
  | vector_float4
  deriving DecidableEq, Repr

/-- Byte size of a C type on the 64-bit Apple targets the headers are built
for (LP64: `int` and `float` are 4 bytes, pointers and `uintptr_t` 8 bytes,
`bool` from stdbool.h 1 byte; the simd vectors are packed 32-bit floats).
`void` is an incomplete type and occupies no storage. -/
def csize : CType → Nat
  | .void => 0
  | .bool => 1
  | .float => 4
  | .int => 4
  | .uint32_t => 4
  | .uintptr_t => 8
  | .uint8_t_ptr => 8
  | .const_char_ptr => 8
  | .vector_float2 => 8
  | .vector_float4 => 16

/-- Alignment requirement of a C type on the same targets. -/
def calign : CType → Nat
  | .void => 1
  | .bool => 1
  | .float => 4
  | .int => 4
  | .uint32_t => 4
  | .uintptr_t => 8
  | .uint8_t_ptr => 8
  | .const_char_ptr => 8
  | .vector_float2 => 8
  | .vector_float4 => 16

/-- Bit width of one numeric component of a type (a vector's component is
one lane); `void` has none. -/
def componentBits : CType → Nat
  | .void => 0
  | .bool => 8
  | .float => 32
  | .int => 32
  | .uint32_t => 32
  | .uintptr_t => 64
  | .uint8_t_ptr => 64
  | .const_char_ptr => 64
  | .vector_float2 => 32
  | .vector_float4 => 32

/-- Number of numeric components stored in a value of the type. -/
def componentCount : CType → Nat
  | .void => 0
  | .vector_float2 => 2
  | .vector_float4 => 4
  | _ => 1

/-- Whether the components of a type are IEEE floats. -/
def isFloatTyped : CType → Bool
  | .float => true
  | .vector_float2 => true
  | .vector_float4 => true
  | _ => false

/-! ## Metal.h: the uniform records -/

/-- One member of a C struct: its declared type and its name. -/
structure Field where
  type : CType
  name : String
  deriving DecidableEq, Repr

/-- A `typedef struct { ... } Name;` declaration: the members top to
bottom. -/
structure CStruct where
  name : String
  fields : List Field
  deriving DecidableEq, Repr

/-- Metal.h lines 17-21. -/
def VertexUniform : CStruct :=
  { name := "VertexUniform"
    fields := [
      ⟨.vector_float2, "position"⟩,
      ⟨.vector_float2, "textureCoordinate"⟩ ] }

/-- Metal.h lines 23-32. -/
def TextureUniform : CStruct :=
  { name := "TextureUniform"
    fields := [
      ⟨.vector_float2, "screenSize"⟩,
      ⟨.vector_float2, "pos"⟩,
      ⟨.vector_float2, "size"⟩,
      ⟨.float, "globalAlpha"⟩,
      ⟨.int, "mirrorX"⟩ ] }

/-- Metal.h lines 34-45. -/
def DiscUniform : CStruct :=
  { name := "DiscUniform"
    fields := [
      ⟨.vector_float4, "fillColor"⟩,
      ⟨.vector_float4, "borderColor"⟩,
      ⟨.float, "radius"⟩,
      ⟨.float, "borderSize"⟩,
      ⟨.float, "rotation"⟩,
      ⟨.float, "onion"⟩,
      ⟨.int, "hasTexture"⟩,
      ⟨.vector_float2, "textureSize"⟩ ] }

/-- Metal.h lines 47-66. -/
def BoxUniform : CStruct :=
  { name := "BoxUniform"
    fields := [
      ⟨.vector_float2, "screenSize"⟩,
      ⟨.vector_float2, "pos"⟩,
      ⟨.vector_float2, "size"⟩,
      ⟨.float, "round"⟩,
      ⟨.float, "borderSize"⟩,
      ⟨.vector_float4, "fillColor"⟩,
      ⟨.vector_float4, "borderColor"⟩,
      ⟨.float, "rotation"⟩,
      ⟨.float, "onion"⟩,
      ⟨.int, "mirrorX"⟩,
      ⟨.int, "mirrorY"⟩,
      ⟨.int, "hasTexture"⟩,
      ⟨.vector_float2, "textureSize"⟩,
      ⟨.vector_float2, "checkerSize"⟩ ] }

/-- Metal.h lines 68-74. -/
def TextUniform : CStruct :=
  { name := "TextUniform"
    fields := [
      ⟨.vector_float2, "atlasSize"⟩,
      ⟨.vector_float2, "fontPos"⟩,
      ⟨.vector_float2, "fontSize"⟩,
      ⟨.vector_float4, "color"⟩ ] }

/-- Metal.h lines 76-82. -/
def GridUniform : CStruct :=
  { name := "GridUniform"
    fields := [
      ⟨.vector_float2, "screenSize"⟩,
      ⟨.vector_float2, "offset"⟩,
      ⟨.float, "gridSize"⟩,
      ⟨.float, "scale"⟩ ] }

/-- The records of Metal.h in declaration order. -/
def metalRecords : List CStruct :=
  [VertexUniform, TextureUniform, DiscUniform, BoxUniform, TextUniform, GridUniform]

/-! ## The C struct layout rule -/

/-- Smallest multiple of `a` that is at least `off`. -/
def alignUp (off a : Nat) : Nat :=
  (off + a - 1) / a * a

/-- Offsets of the members when the first one may start at `off`: each
member is placed at the first multiple of its alignment at or after the end
of the member before it. -/
def layoutFrom (off : Nat) : List Field → List Nat
  | [] => []
  | f :: fs =>
    let o := alignUp off (calign f.type)
    o :: layoutFrom (o + csize f.type) fs

/-- End of the last member when the first one may start at `off`. -/
def layoutEnd (off : Nat) : List Field → Nat
  | [] => off
  | f :: fs => layoutEnd (alignUp off (calign f.type) + csize f.type) fs

/-- Byte offsets of the members of a record. -/
def CStruct.offsets (s : CStruct) : List Nat :=
  layoutFrom 0 s.fields

/-- Alignment of a record: that of its widest member. -/
def CStruct.align (s : CStruct) : Nat :=
  (s.fields.map (fun f => calign f.type)).foldr max 1

/-- Size of a record: the end of its last member rounded up to the record's
alignment. -/
def CStruct.size (s : CStruct) : Nat :=
  alignUp (layoutEnd 0 s.fields) s.align

/-- Sum of the sizes of the members, padding left out. -/
def CStruct.payload (s : CStruct) : Nat :=
  (s.fields.map (fun f => csize f.type)).sum

/-- Each member as (offset, end offset), in declaration order. -/
def CStruct.extents (s : CStruct) : List (Nat × Nat) :=
  List.zipWith (fun o f => (o, o + csize f.type)) s.offsets s.fields

/-- The joints of a record: for each member after the first, the byte where
the member before it ends paired with the byte where the member begins.  A
joint `(e, o)` with `e < o` is interior padding of `o - e` bytes. -/
def joints : List (Nat × Nat) → List (Nat × Nat)
  | (_, e) :: (o, e') :: rest => (e, o) :: joints ((o, e') :: rest)
  | _ => []

/-- The joints of a record's members. -/
def CStruct.joints (s : CStruct) : List (Nat × Nat) :=
  Eldiron.joints s.extents

/-! ## The schema table of the spec -/

/-- The four kinds of field the schema table distinguishes. -/
inductive FieldKind
  | vec2
  | vec4
  | scalar
  | flag
  deriving DecidableEq, Repr

/-- The kind a declared C type falls under: `vector_float2` is a 2D float
vector, `vector_float4` a 4-component float vector, `float` a float scalar
and `int` an integer flag; the other types are none of the four. -/
def kindOf : CType → Option FieldKind
  | .vector_float2 => some .vec2
  | .vector_float4 => some .vec4
  | .float => some .scalar
  | .int => some .flag
  | _ => none

/-- The schema table of spec section 4.1, row by row and entry by entry.  An
entry is the kind the table gives ("2D" is `vec2`, "RGBA" is `vec4`,
"scalar" is `scalar`, "boolean" is `flag`) and the member the entry's
wording denotes: "2D screen size" is `screenSize`, "scalar corner radius" is
`round`, "2D glyph position in atlas" is `fontPos`, "2D glyph size" is
`fontSize`, "scalar grid cell size" is `gridSize`, "scalar zoom scale" is
`scale`, and so on. -/
def schema : List (String × List (FieldKind × String)) :=
  [ ("VertexUniform",
      [(.vec2, "position"), (.vec2, "textureCoordinate")]),
    ("TextureUniform",
      [(.vec2, "screenSize"), (.vec2, "pos"), (.vec2, "size"),
       (.scalar, "globalAlpha"), (.flag, "mirrorX")]),
    ("DiscUniform",
      [(.vec4, "fillColor"), (.vec4, "borderColor"), (.scalar, "radius"),
       (.scalar, "borderSize"), (.scalar, "rotation"), (.scalar, "onion"),
       (.flag, "hasTexture"), (.vec2, "textureSize")]),
    ("BoxUniform",
      [(.vec2, "screenSize"), (.vec2, "pos"), (.vec2, "size"),
       (.scalar, "round"), (.scalar, "borderSize"), (.vec4, "fillColor"),
       (.vec4, "borderColor"), (.scalar, "rotation"), (.scalar, "onion"),
       (.flag, "mirrorX"), (.flag, "mirrorY"), (.flag, "hasTexture"),
       (.vec2, "textureSize"), (.vec2, "checkerSize")]),
    ("TextUniform",
      [(.vec2, "atlasSize"), (.vec2, "fontPos"), (.vec2, "fontSize"),
       (.vec4, "color")]),
    ("GridUniform",
      [(.vec2, "screenSize"), (.vec2, "offset"), (.scalar, "gridSize"),
       (.scalar, "scale")]) ]

/-- A record as the schema table would describe it: its name and, top to
bottom, the kind and name of every member. -/
def CStruct.described (s : CStruct) : String × List (Option FieldKind × String) :=
  (s.name, s.fields.map (fun f => (kindOf f.type, f.name)))

/-- The members of the records that are not float-typed, as
(record, member, declared type): the boolean flags. -/
def flagFields : List (String × String × CType) :=
  metalRecords.flatMap (fun r =>
    (r.fields.filter (fun f => !isFloatTyped f.type)).map
      (fun f => (r.name, f.name, f.type)))

/-! ## Bridge.h and rust.h: constants and prototypes -/

/-- An object-like `#define`.  `value` is `none` when the macro has an empty
replacement (the include guard `Bridge_h`). -/
structure Define where
  name : String
  value : Option Nat
  deriving DecidableEq, Repr

/-- One declared parameter; the name is optional in a prototype. -/
structure Param where
  type : CType
  name : Option String
  deriving DecidableEq, Repr

/-- The three ways the headers write a parameter list. -/
inductive Params
  | empty
  | void
  | list (ps : List Param)
  deriving DecidableEq, Repr

/-- The parameter types, in order.  Both `()` and `(void)` declare none. -/
def Params.types : Params → List CType
  | .empty => []
  | .void => []
  | .list ps => ps.map (fun p => p.type)

/-- The parameter names, in order. -/
def Params.names : Params → List (Option String)
  | .empty => []
  | .void => []
  | .list ps => ps.map (fun p => p.name)

/-- A function prototype. -/
structure FunDecl where
  result : CType
  name : String
  params : Params
  deriving DecidableEq, Repr

/-- Result type and parameter type list of a prototype. -/
def FunDecl.signature (f : FunDecl) : CType × List CType :=
  (f.result, f.params.types)

/-- What a header contributes to the boundary: its macros and its
prototypes, in source order.  Comments (such as the commented-out two-argument
`rust_init` on Bridge.h line 34) declare nothing. -/
structure Header where
  defines : List Define
  functions : List FunDecl
  deriving DecidableEq, Repr

/-- The two coordinates of a pointer event, `(float x, float y)`. -/
def xy : Params :=
  .list [⟨.float, some "x"⟩, ⟨.float, some "y"⟩]

/-- The parameters of `rust_draw`, written the same in both headers. -/
def drawParams : Params :=
  .list [⟨.uint8_t_ptr, some "pixels"⟩, ⟨.uint32_t, some "width"⟩,
         ⟨.uint32_t, some "height"⟩, ⟨.uintptr_t, some "anim_counter"⟩]

/-- Bridge.h, lines 9-58.  Its `#import "Metal.h"` brings in the uniform
records above; the include guards `Bridge_h` and `Metal_h` carry no value. -/
def Bridge_h : Header :=
  { defines := [
      ⟨"Bridge_h", none⟩,
      ⟨"GAME_TICK_IN_MS", some 250⟩,
      ⟨"KEY_ESCAPE", some 0⟩,
      ⟨"KEY_RETURN", some 1⟩,
      ⟨"KEY_DELETE", some 2⟩,
      ⟨"KEY_UP", some 3⟩,
      ⟨"KEY_RIGHT", some 4⟩,
      ⟨"KEY_DOWN", some 5⟩,
      ⟨"KEY_LEFT", some 6⟩,
      ⟨"KEY_SPACE", some 7⟩,
      ⟨"KEY_TAB", some 8⟩ ]
    functions := [
      ⟨.void, "rust_init", .empty⟩,
      ⟨.void, "rust_draw", drawParams⟩,
      ⟨.void, "rust_update", .empty⟩,
      ⟨.uint32_t, "rust_target_fps", .void⟩,
      ⟨.bool, "rust_hover", xy⟩,
      ⟨.bool, "rust_touch_down", xy⟩,
      ⟨.bool, "rust_touch_dragged", xy⟩,
      ⟨.bool, "rust_touch_up", xy⟩,
      ⟨.bool, "rust_touch_wheel", xy⟩,
      ⟨.bool, "rust_key_down", .list [⟨.const_char_ptr, none⟩]⟩,
      ⟨.bool, "rust_special_key_down", .list [⟨.uint32_t, some "key"⟩]⟩,
      ⟨.void, "rust_open", .empty⟩,
      ⟨.void, "rust_undo", .empty⟩,
      ⟨.void, "rust_redo", .empty⟩,
      ⟨.const_char_ptr, "rust_cut", .empty⟩,
      ⟨.const_char_ptr, "rust_copy", .empty⟩,
      ⟨.const_char_ptr, "rust_paste", .list [⟨.const_char_ptr, none⟩]⟩ ] }

/-- The header rust.h, lines 6-44. -/
def rust_h : Header :=
  { defines := [
      ⟨"KEY_ESCAPE", some 0⟩,
      ⟨"KEY_RETURN", some 1⟩,
      ⟨"KEY_DELETE", some 2⟩,
      ⟨"KEY_UP", some 3⟩,
      ⟨"KEY_RIGHT", some 4⟩,
      ⟨"KEY_DOWN", some 5⟩,
      ⟨"KEY_LEFT", some 6⟩,
      ⟨"KEY_SPACE", some 7⟩,
      ⟨"KEY_TAB", some 8⟩,
      ⟨"GAME_TICK_IN_MS", some 250⟩ ]
    functions := [
      ⟨.void, "rust_draw", drawParams⟩,
      ⟨.void, "rust_init", .list [⟨.const_char_ptr, some "p"⟩]⟩,
      ⟨.uint32_t, "rust_target_fps", .void⟩,
      ⟨.bool, "rust_hover", xy⟩,
      ⟨.bool, "rust_touch_down", xy⟩,
      ⟨.bool, "rust_touch_dragged", xy⟩,
      ⟨.bool, "rust_touch_up", xy⟩,
      ⟨.bool, "rust_touch_wheel", xy⟩,
      ⟨.bool, "rust_key_down", .list [⟨.const_char_ptr, some "p"⟩]⟩,
      ⟨.bool, "rust_special_key_down", .list [⟨.uint32_t, some "key"⟩]⟩ ] }

/-- The constants of a header: the macros that carry a value, as
(name, value) in source order. -/
def Header.constants (h : Header) : List (String × Nat) :=
  h.defines.filterMap (fun d => d.value.map (fun v => (d.name, v)))

/-- Value of the constant called `n`, if the header defines one. -/
def Header.constant (h : Header) (n : String) : Option Nat :=
  (h.constants.find? (fun c => c.1 = n)).map (fun c => c.2)

/-- The prototype of the function called `n`, if the header declares one. -/
def Header.function (h : Header) (n : String) : Option FunDecl :=
  h.functions.find? (fun f => f.name = n)

/-- The names of the functions a header declares, in source order. -/
def Header.functionNames (h : Header) : List String :=
  h.functions.map (fun f => f.name)

/-- Whether a macro name belongs to the key-code family `KEY_...`. -/
def isKeyName (n : String) : Bool :=
  n.toList.take 4 = ['K', 'E', 'Y', '_']

/-- The key-code constants of a header, as (name, value) in source order. -/
def Header.keyConstants (h : Header) : List (String × Nat) :=
  h.constants.filter (fun c => isKeyName c.1)

/-- The named keys of the boundary, in the order the spec lists them. -/
inductive KeyCode
  | Escape | Return | Delete | Up | Right | Down | Left | Space | Tab
  deriving DecidableEq, Repr

/-- The macro that carries a key's code. -/
def KeyCode.constantName : KeyCode → String
  | .Escape => "KEY_ESCAPE"
  | .Return => "KEY_RETURN"
  | .Delete => "KEY_DELETE"
  | .Up => "KEY_UP"
  | .Right => "KEY_RIGHT"
  | .Down => "KEY_DOWN"
  | .Left => "KEY_LEFT"
  | .Space => "KEY_SPACE"
  | .Tab => "KEY_TAB"

/-- All nine keys, in the spec's order. -/
def KeyCode.all : List KeyCode :=
  [.Escape, .Return, .Delete, .Up, .Right, .Down, .Left, .Space, .Tab]

/-- The numeric code a header gives a key. -/
def Header.keyCode (h : Header) (k : KeyCode) : Option Nat :=
  h.constant k.constantName

/-! ## The frame driver's tick state -/

/-- The tick duration in milliseconds, as Bridge.h defines it. -/
def GAME_TICK_IN_MS : Nat :=
  (Bridge_h.constant "GAME_TICK_IN_MS").getD 0

/-- Modelled from the spec: the body of `rust_draw` is not among the sources
(Bridge.h and rust.h hold only its prototype), so the state it works on
follows spec section 3, "TickState: process-wide state S = (accumulated time
since last logical tick, current simulation snapshot)".  Time is in
milliseconds; the snapshot type is left open. -/
structure TickState (σ : Type) where
  accumulated : Nat
  snapshot : σ

/-- Modelled from the spec: one `rust_draw` call as the frame driver sees
it, the body of `rust_draw` being absent from the sources: the animation
counter the host passes and the wall-clock time in milliseconds elapsed
since the previous call.  The pixel buffer and its dimensions only receive
the frame and are left out. -/
structure DrawCall where
  anim_counter : Nat
  elapsed : Nat
  deriving DecidableEq, Repr

/-- Modelled from the spec: the number of logical ticks one `rust_draw` call
performs, the body of `rust_draw` being absent from the sources.  Spec
section 4.2: the call "advances zero or more fixed-duration logical ticks
(duration = a fixed constant, 250 ms) based on elapsed wall time since the
previous call": one tick for every whole tick duration in the time elapsed
since the previous call, "bounded, to avoid unbounded stalls".  The spec
leaves the bound open (section 9), so it is the parameter `maxCatchUp`. -/
def ticksDue (maxCatchUp : Nat) (c : DrawCall) : Nat :=
  min (c.elapsed / GAME_TICK_IN_MS) maxCatchUp

/-- Modelled from the spec: the effect of `rust_draw` on the tick state, the
body of `rust_draw` being absent from the sources.  `tick` is one logical
simulation step; the ticks due are applied to the snapshot.  The accumulated
field is what spec section 3 calls it, the time since the last logical tick:
it grows by the elapsed time when the call fires no tick and restarts at 0
when it fires one.  The animation counter drives "time-based effects" of the
picture only and does not enter the tick state. -/
def rust_draw {σ : Type} (tick : σ → σ) (maxCatchUp : Nat) (s : TickState σ)
    (c : DrawCall) : TickState σ :=
  { accumulated :=
      if ticksDue maxCatchUp c = 0 then s.accumulated + c.elapsed else 0
    snapshot := Nat.iterate tick (ticksDue maxCatchUp c) s.snapshot }

/-- One call of a run together with the tick state before and after it. -/
structure DrawStep (σ : Type) where
  before : TickState σ
  call : DrawCall
  after : TickState σ

/-- Modelled from the spec: a sequence of `rust_draw` calls run from state
`s`, the body of `rust_draw` being absent from the sources: every call with
the state it found and the state it left. -/
def drawSteps {σ : Type} (tick : σ → σ) (maxCatchUp : Nat) :
    TickState σ → List DrawCall → List (DrawStep σ)
  | _, [] => []
  | s, c :: cs =>
    ⟨s, c, rust_draw tick maxCatchUp s c⟩ ::
      drawSteps tick maxCatchUp (rust_draw tick maxCatchUp s c) cs

/-! ## Theorems: the uniform records -/

/-- C1: the six records of Metal.h, each read top to bottom as (kind, member),
are exactly the six rows of the schema table of spec section 4.1: same
records in the same order, same number of members, same kind and same member
at every position. -/
theorem C1_records_follow_schema :
    metalRecords.map CStruct.described =
      schema.map (fun row => (row.1, row.2.map (fun e => (some e.1, e.2)))) ∧
    metalRecords.map (fun r => r.fields.length) =
      schema.map (fun row => row.2.length) ∧
    BoxUniform.described =
      ("BoxUniform",
        [(some .vec2, "screenSize"), (some .vec2, "pos"), (some .vec2, "size"),
         (some .scalar, "round"), (some .scalar, "borderSize"),
         (some .vec4, "fillColor"), (some .vec4, "borderColor"),
         (some .scalar, "rotation"), (some .scalar, "onion"),
         (some .flag, "mirrorX"), (some .flag, "mirrorY"),
         (some .flag, "hasTexture"), (some .vec2, "textureSize"),
         (some .vec2, "checkerSize")]) := by
  refine ⟨?_, ?_, ?_⟩ <;> decide

/-- C2: every member of every record of Metal.h is made of 32-bit
components: it is a `float`, a `vector_float2` (2 floats), a `vector_float4`
(4 floats) or an `int`, never a `bool`; its byte size is 4 times its number
of components, hence 4, 8 or 16.  The members that are not floats are exactly
the five boolean flags, each declared `int` (32 bits, 4 bytes). -/
theorem C2_fields_are_32_bit :
    (∀ r ∈ metalRecords, ∀ f ∈ r.fields,
      componentBits f.type = 32 ∧
      (f.type = .float ∨ f.type = .vector_float2 ∨ f.type = .vector_float4 ∨
        f.type = .int) ∧
      f.type ≠ .bool ∧
      csize f.type * 8 = componentCount f.type * 32 ∧
      (componentCount f.type = 1 ∨
        (isFloatTyped f.type = true ∧
          (componentCount f.type = 2 ∨ componentCount f.type = 4))) ∧
      (csize f.type = 4 ∨ csize f.type = 8 ∨ csize f.type = 16)) ∧
    flagFields =
      [("TextureUniform", "mirrorX", .int), ("DiscUniform", "hasTexture", .int),
       ("BoxUniform", "mirrorX", .int), ("BoxUniform", "mirrorY", .int),
       ("BoxUniform", "hasTexture", .int)] ∧
    componentBits .int = 32 ∧ csize .int = 4 ∧ csize .bool = 1 := by
  refine ⟨?_, ?_, ?_, ?_, ?_⟩ <;> decide

/-- C3, as stated, fails: the records are not free of interior padding.  In
DiscUniform the member `hasTexture` ends at byte 52 and `textureSize` begins
at byte 56, so it is false that in every record every member begins where
the member before it ends. -/
theorem C3_interior_padding_exists :
    DiscUniform ∈ metalRecords ∧
    DiscUniform.extents.drop 6 = [(48, 52), (56, 64)] ∧
    (52, 56) ∈ DiscUniform.joints ∧
    ¬ (∀ j ∈ DiscUniform.joints, j.2 = j.1) ∧
    ¬ (∀ r ∈ metalRecords,
        (∀ j ∈ r.joints, j.2 = j.1) ∧ r.size = alignUp r.payload r.align) := by
  refine ⟨?_, ?_, ?_, ?_, ?_⟩ <;> decide

/-- C3 amended: under the C struct rule every member begins at the first
multiple of its own alignment at or after the end of the member before it.
That leaves interior padding at exactly three places, 4 bytes before
`DiscUniform.textureSize` (52 to 56), 4 bytes before `BoxUniform.textureSize`
(84 to 88) and 8 bytes before `TextUniform.color` (24 to 32); VertexUniform,
TextureUniform and GridUniform have none.  In all six records the size is the
sum of the member sizes rounded up to the alignment of the widest member. -/
theorem C3_padding_is_alignment_only :
    metalRecords.map (fun r => r.joints.filter (fun j => j.1 ≠ j.2)) =
      [[], [], [(52, 56)], [(84, 88)], [(24, 32)], []] ∧
    (∀ r ∈ metalRecords,
      List.Forall₂ (fun j f => j.2 = alignUp j.1 (calign f.type) ∧ j.1 ≤ j.2)
        r.joints r.fields.tail) ∧
    (∀ r ∈ metalRecords, r.size = alignUp r.payload r.align) ∧
    metalRecords.map CStruct.payload = [16, 32, 60, 100, 40, 24] ∧
    metalRecords.map CStruct.align = [8, 8, 16, 16, 16, 8] ∧
    metalRecords.map CStruct.size = [16, 32, 64, 112, 48, 24] := by
  refine ⟨?_, ?_, ?_, ?_, ?_, ?_⟩ <;> decide

/-- C9: the byte offsets and sizes of the six records under the C struct
rule are the listed ones (VertexUniform 0,8 size 16; TextureUniform
0,8,16,24,28 size 32; DiscUniform 0,16,32,36,40,44,48,56 size 64; BoxUniform
0,8,16,24,28,32,48,64,68,72,76,80,88,96 size 112; TextUniform 0,8,16,32 size
48; GridUniform 0,8,16,20 size 24); in every record the offsets increase
strictly, each offset is a multiple of its member's alignment, no two members
overlap and every member lies inside the record. -/
theorem C9_layout_regression :
    metalRecords.map (fun r => (r.name, r.offsets, r.size)) =
      [ ("VertexUniform", [0, 8], 16),
        ("TextureUniform", [0, 8, 16, 24, 28], 32),
        ("DiscUniform", [0, 16, 32, 36, 40, 44, 48, 56], 64),
        ("BoxUniform", [0, 8, 16, 24, 28, 32, 48, 64, 68, 72, 76, 80, 88, 96], 112),
        ("TextUniform", [0, 8, 16, 32], 48),
        ("GridUniform", [0, 8, 16, 20], 24) ] ∧
    ((DiscUniform.fields.map (fun f => f.name)).zip DiscUniform.offsets).lookup
      "textureSize" = some 56 ∧
    ((BoxUniform.fields.map (fun f => f.name)).zip BoxUniform.offsets).lookup
      "textureSize" = some 88 ∧
    ((TextUniform.fields.map (fun f => f.name)).zip TextUniform.offsets).lookup
      "color" = some 32 ∧
    (∀ r ∈ metalRecords, r.offsets.length = r.fields.length) ∧
    (∀ r ∈ metalRecords, r.offsets.Pairwise (fun a b => a < b)) ∧
    (∀ r ∈ metalRecords,
      List.Forall₂ (fun o f => calign f.type ∣ o) r.offsets r.fields) ∧
    (∀ r ∈ metalRecords, r.extents.Pairwise (fun a b => a.2 ≤ b.1)) ∧
    (∀ r ∈ metalRecords, ∀ e ∈ r.extents, e.1 < e.2 ∧ e.2 ≤ r.size) := by
  refine ⟨?_, ?_, ?_, ?_, ?_, ?_, ?_, ?_, ?_⟩ <;> decide

/-! ## Theorems: constants and prototypes of the bridge headers -/

/-- C4: in both Bridge.h and rust.h the key-code constants are exactly
KEY_ESCAPE=0, KEY_RETURN=1, KEY_DELETE=2, KEY_UP=3, KEY_RIGHT=4, KEY_DOWN=5,
KEY_LEFT=6, KEY_SPACE=7, KEY_TAB=8, and the map from the nine keys (Escape,
Return, Delete, Up, Right, Down, Left, Space, Tab) to their codes is a
bijection onto 0..8: every key has a code below 9, no two keys share a code,
every value of 0..8 is the code of a key, and no key constant lies outside
0..8. -/
theorem C4_key_codes_closed_enumeration :
    (Bridge_h.keyConstants =
        [("KEY_ESCAPE", 0), ("KEY_RETURN", 1), ("KEY_DELETE", 2), ("KEY_UP", 3),
         ("KEY_RIGHT", 4), ("KEY_DOWN", 5), ("KEY_LEFT", 6), ("KEY_SPACE", 7),
         ("KEY_TAB", 8)] ∧
      rust_h.keyConstants = Bridge_h.keyConstants) ∧
    (∀ k : KeyCode, k ∈ KeyCode.all) ∧
    (KeyCode.all.map Bridge_h.keyCode = (List.range 9).map some ∧
      KeyCode.all.map rust_h.keyCode = (List.range 9).map some) ∧
    (∀ k : KeyCode, ∃ v, v < 9 ∧ Bridge_h.keyCode k = some v ∧
      rust_h.keyCode k = some v) ∧
    (∀ k k' : KeyCode, Bridge_h.keyCode k = Bridge_h.keyCode k' → k = k') ∧
    (∀ k k' : KeyCode, rust_h.keyCode k = rust_h.keyCode k' → k = k') ∧
    (∀ v, v < 9 → ∃ k : KeyCode, Bridge_h.keyCode k = some v ∧
      rust_h.keyCode k = some v) ∧
    (∀ c ∈ Bridge_h.keyConstants ++ rust_h.keyConstants, c.2 < 9) := by
  refine ⟨⟨by decide, by decide⟩, ?_, ⟨by decide, by decide⟩, ?_, ?_, ?_, ?_, by decide⟩
  · intro k; cases k <;> decide
  · intro k; cases k <;> decide
  · intro k k'; cases k <;> cases k' <;> decide
  · intro k k'; cases k <;> cases k' <;> decide
  · intro v hv
    interval_cases v
    · exact ⟨.Escape, by decide⟩
    · exact ⟨.Return, by decide⟩
    · exact ⟨.Delete, by decide⟩
    · exact ⟨.Up, by decide⟩
    · exact ⟨.Right, by decide⟩
    · exact ⟨.Down, by decide⟩
    · exact ⟨.Left, by decide⟩
    · exact ⟨.Space, by decide⟩
    · exact ⟨.Tab, by decide⟩

/-- C5: GAME_TICK_IN_MS is defined as 250 in Bridge.h and as 250 in rust.h;
the two headers agree on the tick duration. -/
theorem C5_tick_duration_250 :
    Bridge_h.constant "GAME_TICK_IN_MS" = some 250 ∧
    rust_h.constant "GAME_TICK_IN_MS" = some 250 ∧
    Bridge_h.constant "GAME_TICK_IN_MS" = rust_h.constant "GAME_TICK_IN_MS" ∧
    GAME_TICK_IN_MS = 250 := by
  refine ⟨?_, ?_, ?_, ?_⟩ <;> decide

/-- C6, as stated, fails: Bridge.h declares `rust_paste` with result type
`const char *`, not `void`. -/
theorem C6_paste_result_not_void :
    Bridge_h.function "rust_paste" =
      some ⟨.const_char_ptr, "rust_paste", .list [⟨.const_char_ptr, none⟩]⟩ ∧
    ¬ ((Bridge_h.function "rust_cut").map FunDecl.signature =
          some (.const_char_ptr, []) ∧
       (Bridge_h.function "rust_copy").map FunDecl.signature =
          some (.const_char_ptr, []) ∧
       (Bridge_h.function "rust_paste").map FunDecl.signature =
          some (.void, [.const_char_ptr])) := by
  refine ⟨?_, ?_⟩ <;> decide

/-- C6 amended: in Bridge.h `rust_cut` and `rust_copy` are declared with no
parameter and result type `const char *` (text or null); `rust_paste` is
declared with one `const char *` parameter and its declared result type is
`const char *` as well.  The header rust.h declares none of the three. -/
theorem C6_clipboard_prototypes :
    (Bridge_h.function "rust_cut").map FunDecl.signature =
      some (.const_char_ptr, []) ∧
    (Bridge_h.function "rust_copy").map FunDecl.signature =
      some (.const_char_ptr, []) ∧
    (Bridge_h.function "rust_paste").map FunDecl.signature =
      some (.const_char_ptr, [.const_char_ptr]) ∧
    rust_h.function "rust_cut" = none ∧
    rust_h.function "rust_copy" = none ∧
    rust_h.function "rust_paste" = none := by
  refine ⟨?_, ?_, ?_, ?_, ?_, ?_⟩ <;> decide

/-- C7: in both Bridge.h and rust.h each of rust_hover, rust_touch_down,
rust_touch_dragged, rust_touch_up and rust_touch_wheel is declared with
exactly two `float` parameters named x and y and result type `bool`;
rust_key_down with one `const char *` parameter and result `bool`;
rust_special_key_down with one `uint32_t` parameter and result `bool`. -/
theorem C7_input_entry_points_return_bool :
    (∀ n ∈ ["rust_hover", "rust_touch_down", "rust_touch_dragged",
             "rust_touch_up", "rust_touch_wheel"],
      Bridge_h.function n = some ⟨.bool, n, xy⟩ ∧
      rust_h.function n = some ⟨.bool, n, xy⟩) ∧
    (xy.types = [.float, .float] ∧ xy.names = [some "x", some "y"] ∧
      componentBits .float = 32) ∧
    ((Bridge_h.function "rust_key_down").map FunDecl.signature =
        some (.bool, [.const_char_ptr]) ∧
      (rust_h.function "rust_key_down").map FunDecl.signature =
        some (.bool, [.const_char_ptr])) ∧
    ((Bridge_h.function "rust_special_key_down").map FunDecl.signature =
        some (.bool, [.uint32_t]) ∧
      (rust_h.function "rust_special_key_down").map FunDecl.signature =
        some (.bool, [.uint32_t]) ∧
      componentBits .uint32_t = 32) := by
  refine ⟨?_, ⟨?_, ?_, ?_⟩, ⟨?_, ?_⟩, ⟨?_, ?_, ?_⟩⟩ <;> decide

/-- C10: the two bridge headers describe one boundary.  Every constant of
rust.h is a constant of Bridge.h with the same value and the other way
round; every function of rust.h other than rust_init is declared in Bridge.h
with the same result type and the same parameter type list; rust_init is
declared in both, with one `const char *` parameter in rust.h and an empty
parameter list in Bridge.h, and is the only function declared in both whose
parameter lists differ; the functions declared in Bridge.h and not in rust.h
are rust_update, rust_open, rust_undo, rust_redo, rust_cut, rust_copy and
rust_paste.  No header declares a name twice. -/
theorem C10_headers_agree :
    ((∀ c ∈ rust_h.constants, Bridge_h.constant c.1 = some c.2) ∧
      (∀ c ∈ Bridge_h.constants, rust_h.constant c.1 = some c.2)) ∧
    (∀ f ∈ rust_h.functions, f.name ≠ "rust_init" →
      (Bridge_h.function f.name).map FunDecl.signature = some f.signature) ∧
    (rust_h.function "rust_init" =
        some ⟨.void, "rust_init", .list [⟨.const_char_ptr, some "p"⟩]⟩ ∧
      Bridge_h.function "rust_init" = some ⟨.void, "rust_init", .empty⟩) ∧
    (∀ f ∈ rust_h.functions, ∀ g ∈ Bridge_h.functions, f.name = g.name →
      (f.params.types ≠ g.params.types ↔ f.name = "rust_init")) ∧
    Bridge_h.functionNames.filter (fun n => n ∉ rust_h.functionNames) =
      ["rust_update", "rust_open", "rust_undo", "rust_redo", "rust_cut",
       "rust_copy", "rust_paste"] ∧
    rust_h.functionNames.filter (fun n => n ∉ Bridge_h.functionNames) = [] ∧
    (Bridge_h.functionNames.Nodup ∧ rust_h.functionNames.Nodup ∧
      (Bridge_h.defines.map (fun d => d.name)).Nodup ∧
      (rust_h.defines.map (fun d => d.name)).Nodup) := by
  refine ⟨⟨?_, ?_⟩, ?_, ⟨?_, ?_⟩, ?_, ?_, ?_, ⟨?_, ?_, ?_, ?_⟩⟩ <;> decide

/-! ## Theorems: the frame driver's ticks -/

/-- A `rust_draw` call whose elapsed time is below one tick duration performs
no tick, keeps the snapshot and adds the elapsed time to the accumulated
time. -/
theorem rust_draw_below_tick {σ : Type} (tick : σ → σ) (maxCatchUp : Nat)
    (s : TickState σ) (c : DrawCall) (h : c.elapsed < GAME_TICK_IN_MS) :
    ticksDue maxCatchUp c = 0 ∧
    (rust_draw tick maxCatchUp s c).snapshot = s.snapshot ∧
    (rust_draw tick maxCatchUp s c).accumulated = s.accumulated + c.elapsed := by
  have hdue : ticksDue maxCatchUp c = 0 := by
    unfold ticksDue
    rw [Nat.div_eq_of_lt h]
    exact Nat.zero_min maxCatchUp
  refine ⟨hdue, ?_, ?_⟩
  · show Nat.iterate tick (ticksDue maxCatchUp c) s.snapshot = s.snapshot
    rw [hdue]
    rfl
  · show (if ticksDue maxCatchUp c = 0 then s.accumulated + c.elapsed else 0)
      = s.accumulated + c.elapsed
    rw [if_pos hdue]

/-- The tick rule does fire: a call 600 ms after the previous one performs two
ticks when the bound allows them and only as many as the bound allows
otherwise, and a call exactly one tick duration after the previous one
performs one. -/
theorem rust_draw_fires_from_tick_duration :
    ticksDue 4 ⟨1, 600⟩ = 2 ∧
    ticksDue 1 ⟨1, 600⟩ = 1 ∧
    ticksDue 4 ⟨1, 250⟩ = 1 ∧
    ticksDue 4 ⟨1, 249⟩ = 0 ∧
    (drawSteps Nat.succ 4 ⟨0, 0⟩ [⟨1, 100⟩, ⟨2, 600⟩, ⟨3, 100⟩]).map
        (fun p => (p.after.accumulated, p.after.snapshot)) =
      [(100, 0), (0, 2), (100, 2)] := by
  refine ⟨?_, ?_, ?_, ?_, ?_⟩ <;> decide

/-- C8: for every sequence of `rust_draw` calls with strictly increasing
animation counters in which the wall-clock gap before every call is less than
one tick duration (GAME_TICK_IN_MS = 250 ms), no logical tick fires: every
call performs zero ticks, and the simulation snapshot in the tick state after
each call equals the snapshot before it (and so the snapshot the run started
from).  This holds from every starting state, for every tick function and
every catch-up bound. -/
theorem C8_no_tick_below_tick_duration {σ : Type} (tick : σ → σ)
    (maxCatchUp : Nat) (s : TickState σ) (calls : List DrawCall)
    (hinc : (calls.map DrawCall.anim_counter).Pairwise (fun a b => a < b))
    (hgap : ∀ c ∈ calls, c.elapsed < GAME_TICK_IN_MS) :
    ∀ p ∈ drawSteps tick maxCatchUp s calls,
      ticksDue maxCatchUp p.call = 0 ∧
      p.after.snapshot = p.before.snapshot ∧
      p.after.snapshot = s.snapshot := by
  induction calls generalizing s with
  | nil =>
    intro p hp
    simp [drawSteps] at hp
  | cons c cs ih =>
    have hc : c.elapsed < GAME_TICK_IN_MS := hgap c (List.mem_cons_self c cs)
    obtain ⟨hdue, hsnap, -⟩ := rust_draw_below_tick tick maxCatchUp s c hc
    have htail : (cs.map DrawCall.anim_counter).Pairwise (fun a b => a < b) := by
      have := hinc
      rw [List.map_cons, List.pairwise_cons] at this
      exact this.2
    have hrest : ∀ d ∈ cs, d.elapsed < GAME_TICK_IN_MS :=
      fun d hd => hgap d (List.mem_cons_of_mem c hd)
    intro p hp
    simp only [drawSteps, List.mem_cons] at hp
    rcases hp with rfl | hp
    · exact ⟨hdue, hsnap, hsnap⟩
    · obtain ⟨h0, h1, h2⟩ := ih (rust_draw tick maxCatchUp s c) htail hrest p hp
      exact ⟨h0, h1, h2.trans hsnap⟩

/-- A run that satisfies the premises of C8: three calls with counters 1, 2, 3,
each 200 ms after the call before it, started with 180 ms already
accumulated; no call ticks and the snapshot stays 7. -/
theorem C8_no_tick_witness :
    (([⟨1, 200⟩, ⟨2, 200⟩, ⟨3, 200⟩] : List DrawCall).map
        DrawCall.anim_counter).Pairwise (fun a b => a < b) ∧
    (∀ c ∈ ([⟨1, 200⟩, ⟨2, 200⟩, ⟨3, 200⟩] : List DrawCall),
        c.elapsed < GAME_TICK_IN_MS) ∧
    ∀ p ∈ drawSteps Nat.succ 4 ⟨180, 7⟩ [⟨1, 200⟩, ⟨2, 200⟩, ⟨3, 200⟩],
      ticksDue 4 p.call = 0 ∧
      p.after.snapshot = p.before.snapshot ∧
      p.after.snapshot = 7 :=
  ⟨by decide, by decide,
    C8_no_tick_below_tick_duration Nat.succ 4 ⟨180, 7⟩
      [⟨1, 200⟩, ⟨2, 200⟩, ⟨3, 200⟩] (by decide) (by decide)⟩

end Eldiron
